import Mathlib

/-!
Shallow embedding of the scroll-driven hero animation and the WebGL shader
renderer of the join-adspend careers page.

The scroll-stage math appears twice in the source, in two variants of the
`ScrollHero` component: a `useState`-driven variant and a direct-DOM
("High Performance Mode") variant.  Both variants compute the same stage
formulas from `(windowHeight, scrollY)`; they differ in how the results are
applied to the DOM (in particular the direct-DOM variant never updates the
stage-2 `pointerEvents` style, which stays at its static initial value
`"none"`).  JavaScript numbers are modelled as exact rationals `ℚ`.
-/

namespace ScrollHeroState

/-- Stage boundary: `const stage1End = windowHeight`. -/
def stage1End (H : ℚ) : ℚ := H

/-- Stage boundary: `const stage2Start = windowHeight * 0.5`. -/
def stage2Start (H : ℚ) : ℚ := H * (1/2)

/-- Stage boundary: `const stage2Peak = windowHeight * 1.5`. -/
def stage2Peak (H : ℚ) : ℚ := H * (3/2)

/-- Stage boundary: `const stage2End = windowHeight * 2.5`. -/
def stage2End (H : ℚ) : ℚ := H * (5/2)

/-- `const stage1Progress = Math.min(scrollY / stage1End, 1)`. -/
def stage1Progress (H s : ℚ) : ℚ := min (s / stage1End H) 1

/-- `const stage1Opacity = Math.max(0, 1 - stage1Progress * 1.5)`. -/
def stage1Opacity (H s : ℚ) : ℚ := max 0 (1 - stage1Progress H s * (3/2))

/-- `const stage1Scale = 1 + stage1Progress * 1.5`. -/
def stage1Scale (H s : ℚ) : ℚ := 1 + stage1Progress H s * (3/2)

/-- `const stage2FadeIn = Math.min(Math.max((scrollY - stage2Start) / (stage2Peak - stage2Start), 0), 1)`. -/
def stage2FadeIn (H s : ℚ) : ℚ :=
  min (max ((s - stage2Start H) / (stage2Peak H - stage2Start H)) 0) 1

/-- `const stage2FadeOut = Math.min(Math.max((scrollY - stage2Peak) / (stage2End - stage2Peak), 0), 1)`. -/
def stage2FadeOut (H s : ℚ) : ℚ :=
  min (max ((s - stage2Peak H) / (stage2End H - stage2Peak H)) 0) 1

/-- `const stage2Opacity = scrollY < stage2Peak ? stage2FadeIn : Math.max(0, 1 - stage2FadeOut)`. -/
def stage2Opacity (H s : ℚ) : ℚ :=
  if s < stage2Peak H then stage2FadeIn H s else max 0 (1 - stage2FadeOut H s)

/-- `const stage2Scale = 1 + Math.max(0, (scrollY - stage2Peak) / windowHeight) * 0.5`. -/
def stage2Scale (H s : ℚ) : ℚ := 1 + max 0 ((s - stage2Peak H) / H) * (1/2)

/-- `const colorProgress = Math.min(Math.max((scrollY - stage2Start) / (stage2Peak - stage2Start), 0), 1)`. -/
def colorProgress (H s : ℚ) : ℚ :=
  min (max ((s - stage2Start H) / (stage2Peak H - stage2Start H)) 0) 1

/-- `const showHeader = scrollY > stage2End - windowHeight * 0.3`. -/
def showHeader (H s : ℚ) : Bool := decide (stage2End H - H * (3/10) < s)

/-- Stage-1 pointer-event gate: `pointerEvents: stage1Opacity > 0.3 ? "auto" : "none"`. -/
def stage1Interactive (H s : ℚ) : Bool := decide ((3/10 : ℚ) < stage1Opacity H s)

/-- Stage-2 pointer-event gate: `pointerEvents: stage2Opacity > 0.5 ? "auto" : "none"`. -/
def stage2Interactive (H s : ℚ) : Bool := decide ((1/2 : ℚ) < stage2Opacity H s)

end ScrollHeroState

namespace ScrollHeroDirect

/-- Stage boundary in the direct-DOM variant: `const stage1End = height`. -/
def stage1End (H : ℚ) : ℚ := H

/-- Stage boundary in the direct-DOM variant: `const stage2Start = height * 0.5`. -/
def stage2Start (H : ℚ) : ℚ := H * (1/2)

/-- Stage boundary in the direct-DOM variant: `const stage2Peak = height * 1.5`. -/
def stage2Peak (H : ℚ) : ℚ := H * (3/2)

/-- Stage boundary in the direct-DOM variant: `const stage2End = height * 2.5`. -/
def stage2End (H : ℚ) : ℚ := H * (5/2)

/-- `const stage1Progress = Math.min(scrollY / stage1End, 1)` (direct-DOM loop). -/
def stage1Progress (H s : ℚ) : ℚ := min (s / stage1End H) 1

/-- `const stage1Opacity = Math.max(0, 1 - stage1Progress * 1.5)` (direct-DOM loop). -/
def stage1Opacity (H s : ℚ) : ℚ := max 0 (1 - stage1Progress H s * (3/2))

/-- `const stage1Scale = 1 + stage1Progress * 1.5` (direct-DOM loop). -/
def stage1Scale (H s : ℚ) : ℚ := 1 + stage1Progress H s * (3/2)

/-- `const textOpacity = Math.max(0, 1 - stage1Progress * 8)` (direct-DOM loop). -/
def stage1TextOpacity (H s : ℚ) : ℚ := max 0 (1 - stage1Progress H s * 8)

/-- `const stage2FadeIn = Math.min(Math.max((scrollY - stage2Start) / (stage2Peak - stage2Start), 0), 1)` (direct-DOM loop). -/
def stage2FadeIn (H s : ℚ) : ℚ :=
  min (max ((s - stage2Start H) / (stage2Peak H - stage2Start H)) 0) 1

/-- `const stage2FadeOut = Math.min(Math.max((scrollY - stage2Peak) / (stage2End - stage2Peak), 0), 1)` (direct-DOM loop). -/
def stage2FadeOut (H s : ℚ) : ℚ :=
  min (max ((s - stage2Peak H) / (stage2End H - stage2Peak H)) 0) 1

/-- `const stage2Opacity = scrollY < stage2Peak ? stage2FadeIn : Math.max(0, 1 - stage2FadeOut)` (direct-DOM loop). -/
def stage2Opacity (H s : ℚ) : ℚ :=
  if s < stage2Peak H then stage2FadeIn H s else max 0 (1 - stage2FadeOut H s)

/-- `const stage2Scale = 1 + Math.max(0, (scrollY - stage2Peak) / height) * 0.5` (direct-DOM loop). -/
def stage2Scale (H s : ℚ) : ℚ := 1 + max 0 ((s - stage2Peak H) / H) * (1/2)

/-- `const showHeader = scrollY > stage2End - height * 0.3` (direct-DOM loop). -/
def showHeader (H s : ℚ) : Bool := decide (stage2End H - H * (3/10) < s)

/-- Stage-1 pointer-event gate in the direct-DOM loop:
`stage1Ref.current.style.pointerEvents = stage1Opacity > 0.3 ? "auto" : "none"`. -/
def stage1Interactive (H s : ℚ) : Bool := decide ((3/10 : ℚ) < stage1Opacity H s)

/-- Stage-2 pointer-event state in the direct-DOM variant: the static JSX style
sets `pointerEvents: "none"` and the animation loop only ever writes
`opacity` and `transform` for stage 2, never `pointerEvents`, so the value
stays `"none"` for every scroll offset. -/
def stage2Interactive (H s : ℚ) : Bool := false

end ScrollHeroDirect

section ScrollLemmas

open ScrollHeroState

lemma clamp01_nonneg (x : ℚ) : 0 ≤ min (max x 0) 1 :=
  le_min (le_max_right x 0) zero_le_one

lemma clamp01_le_one (x : ℚ) : min (max x 0) 1 ≤ 1 :=
  min_le_right _ _

lemma stage1Progress_nonneg (H s : ℚ) (hH : 0 < H) (hs : 0 ≤ s) :
    0 ≤ stage1Progress H s := by
  unfold stage1Progress stage1End
  exact le_min (div_nonneg hs hH.le) zero_le_one

lemma stage1Progress_le_one (H s : ℚ) : stage1Progress H s ≤ 1 :=
  min_le_right _ _

lemma stage1Opacity_mem (H s : ℚ) (hH : 0 < H) (hs : 0 ≤ s) :
    0 ≤ stage1Opacity H s ∧ stage1Opacity H s ≤ 1 := by
  have hp := stage1Progress_nonneg H s hH hs
  constructor
  · exact le_max_left 0 _
  · apply max_le zero_le_one
    nlinarith

lemma stage1Scale_ge_one (H s : ℚ) (hH : 0 < H) (hs : 0 ≤ s) :
    1 ≤ stage1Scale H s := by
  have hp := stage1Progress_nonneg H s hH hs
  unfold stage1Scale
  nlinarith

lemma stage2Opacity_mem (H s : ℚ) :
    0 ≤ stage2Opacity H s ∧ stage2Opacity H s ≤ 1 := by
  unfold stage2Opacity
  split
  · exact ⟨clamp01_nonneg _, clamp01_le_one _⟩
  · have h0 := clamp01_nonneg ((s - stage2Peak H) / (stage2End H - stage2Peak H))
    refine ⟨le_max_left 0 _, max_le zero_le_one ?_⟩
    unfold stage2FadeOut
    linarith

lemma stage2Scale_ge_one (H s : ℚ) : 1 ≤ stage2Scale H s := by
  have h : 0 ≤ max 0 ((s - stage2Peak H) / H) := le_max_left 0 _
  unfold stage2Scale
  nlinarith

lemma stage1Opacity_at_zero (H : ℚ) : stage1Opacity H 0 = 1 := by
  unfold stage1Opacity stage1Progress stage1End
  rw [zero_div]
  norm_num

lemma stage2Opacity_at_zero (H : ℚ) (hH : 0 < H) : stage2Opacity H 0 = 0 := by
  unfold stage2Opacity
  rw [if_pos (by unfold stage2Peak; linarith)]
  unfold stage2FadeIn stage2Start stage2Peak
  have hden : H * (3/2) - H * (1/2) = H := by ring
  rw [hden]
  have hq : (0 - H * (1/2)) / H ≤ 0 :=
    div_nonpos_of_nonpos_of_nonneg (by linarith) hH.le
  rw [max_eq_right hq, min_eq_left zero_le_one]

lemma stage2FadeIn_at_peak (H : ℚ) (hH : 0 < H) :
    stage2FadeIn H (stage2Peak H) = 1 := by
  unfold stage2FadeIn stage2Peak stage2Start
  rw [show H * (3/2) - H * (1/2) = H from by ring]
  rw [div_self hH.ne']
  norm_num

lemma stage2FadeOut_at_peak (H : ℚ) : stage2FadeOut H (stage2Peak H) = 0 := by
  unfold stage2FadeOut
  rw [sub_self, zero_div]
  norm_num

lemma stage2Opacity_at_peak (H : ℚ) : stage2Opacity H (stage2Peak H) = 1 := by
  unfold stage2Opacity
  rw [if_neg (lt_irrefl _), stage2FadeOut_at_peak]
  norm_num

lemma direct_stage1Opacity_eq :
    ScrollHeroDirect.stage1Opacity = ScrollHeroState.stage1Opacity := rfl

lemma direct_stage1Scale_eq :
    ScrollHeroDirect.stage1Scale = ScrollHeroState.stage1Scale := rfl

lemma direct_stage2FadeIn_eq :
    ScrollHeroDirect.stage2FadeIn = ScrollHeroState.stage2FadeIn := rfl

lemma direct_stage2FadeOut_eq :
    ScrollHeroDirect.stage2FadeOut = ScrollHeroState.stage2FadeOut := rfl

lemma direct_stage2Opacity_eq :
    ScrollHeroDirect.stage2Opacity = ScrollHeroState.stage2Opacity := rfl

lemma direct_stage2Scale_eq :
    ScrollHeroDirect.stage2Scale = ScrollHeroState.stage2Scale := rfl

lemma direct_stage2Peak_eq :
    ScrollHeroDirect.stage2Peak = ScrollHeroState.stage2Peak := rfl

lemma direct_showHeader_eq :
    ScrollHeroDirect.showHeader = ScrollHeroState.showHeader := rfl

lemma direct_stage1Interactive_eq :
    ScrollHeroDirect.stage1Interactive = ScrollHeroState.stage1Interactive := rfl

end ScrollLemmas

/-- Claim C1: for every windowHeight `H > 0` and every scroll offset
`scrollY ≥ 0`, the scroll-stage computation yields stage-1 and stage-2
opacities in `[0,1]` and stage-1 and stage-2 scale multipliers `≥ 1`, and at
`scrollY = 0` it yields stage-1 opacity exactly `1` and stage-2 opacity
exactly `0`, in both ScrollHero variants. -/
theorem claim_C1 (H s : ℚ) (hH : 0 < H) (hs : 0 ≤ s) :
    (0 ≤ ScrollHeroState.stage1Opacity H s ∧ ScrollHeroState.stage1Opacity H s ≤ 1) ∧
    (0 ≤ ScrollHeroState.stage2Opacity H s ∧ ScrollHeroState.stage2Opacity H s ≤ 1) ∧
    1 ≤ ScrollHeroState.stage1Scale H s ∧
    1 ≤ ScrollHeroState.stage2Scale H s ∧
    ScrollHeroState.stage1Opacity H 0 = 1 ∧
    ScrollHeroState.stage2Opacity H 0 = 0 ∧
    (0 ≤ ScrollHeroDirect.stage1Opacity H s ∧ ScrollHeroDirect.stage1Opacity H s ≤ 1) ∧
    (0 ≤ ScrollHeroDirect.stage2Opacity H s ∧ ScrollHeroDirect.stage2Opacity H s ≤ 1) ∧
    1 ≤ ScrollHeroDirect.stage1Scale H s ∧
    1 ≤ ScrollHeroDirect.stage2Scale H s ∧
    ScrollHeroDirect.stage1Opacity H 0 = 1 ∧
    ScrollHeroDirect.stage2Opacity H 0 = 0 := by
  rw [direct_stage1Opacity_eq, direct_stage2Opacity_eq, direct_stage1Scale_eq,
    direct_stage2Scale_eq]
  refine ⟨stage1Opacity_mem H s hH hs, stage2Opacity_mem H s,
    stage1Scale_ge_one H s hH hs, stage2Scale_ge_one H s,
    stage1Opacity_at_zero H, stage2Opacity_at_zero H hH,
    stage1Opacity_mem H s hH hs, stage2Opacity_mem H s,
    stage1Scale_ge_one H s hH hs, stage2Scale_ge_one H s,
    stage1Opacity_at_zero H, stage2Opacity_at_zero H hH⟩

/-- Witness for C1 at `H = 1000`, `scrollY = 700`. -/
theorem claim_C1_witness :
    (0 : ℚ) < 1000 ∧ (0 : ℚ) ≤ 700 ∧
    ((0 ≤ ScrollHeroState.stage1Opacity 1000 700 ∧ ScrollHeroState.stage1Opacity 1000 700 ≤ 1) ∧
    (0 ≤ ScrollHeroState.stage2Opacity 1000 700 ∧ ScrollHeroState.stage2Opacity 1000 700 ≤ 1) ∧
    1 ≤ ScrollHeroState.stage1Scale 1000 700 ∧
    1 ≤ ScrollHeroState.stage2Scale 1000 700 ∧
    ScrollHeroState.stage1Opacity 1000 0 = 1 ∧
    ScrollHeroState.stage2Opacity 1000 0 = 0 ∧
    (0 ≤ ScrollHeroDirect.stage1Opacity 1000 700 ∧ ScrollHeroDirect.stage1Opacity 1000 700 ≤ 1) ∧
    (0 ≤ ScrollHeroDirect.stage2Opacity 1000 700 ∧ ScrollHeroDirect.stage2Opacity 1000 700 ≤ 1) ∧
    1 ≤ ScrollHeroDirect.stage1Scale 1000 700 ∧
    1 ≤ ScrollHeroDirect.stage2Scale 1000 700 ∧
    ScrollHeroDirect.stage1Opacity 1000 0 = 1 ∧
    ScrollHeroDirect.stage2Opacity 1000 0 = 0) :=
  ⟨by decide, by decide, claim_C1 1000 700 (by decide) (by decide)⟩

/-- Claim C2: the stage-2 opacity is continuous at the shared boundary
`scrollY = stage2Peak = 1.5 H` of its piecewise definition: the fade-in
branch and the fade-out branch agree there (both equal `1`), so evaluating
opacity at the boundary produces no jump; this holds in both ScrollHero
variants for every `H > 0`. -/
theorem claim_C2 (H : ℚ) (hH : 0 < H) :
    ScrollHeroState.stage2FadeIn H (ScrollHeroState.stage2Peak H) =
      max 0 (1 - ScrollHeroState.stage2FadeOut H (ScrollHeroState.stage2Peak H)) ∧
    ScrollHeroState.stage2Opacity H (ScrollHeroState.stage2Peak H) =
      ScrollHeroState.stage2FadeIn H (ScrollHeroState.stage2Peak H) ∧
    ScrollHeroDirect.stage2FadeIn H (ScrollHeroDirect.stage2Peak H) =
      max 0 (1 - ScrollHeroDirect.stage2FadeOut H (ScrollHeroDirect.stage2Peak H)) ∧
    ScrollHeroDirect.stage2Opacity H (ScrollHeroDirect.stage2Peak H) =
      ScrollHeroDirect.stage2FadeIn H (ScrollHeroDirect.stage2Peak H) := by
  rw [direct_stage2FadeIn_eq, direct_stage2FadeOut_eq, direct_stage2Opacity_eq,
    direct_stage2Peak_eq]
  rw [stage2FadeIn_at_peak H hH, stage2FadeOut_at_peak H, stage2Opacity_at_peak H]
  norm_num

/-- Witness for C2 at `H = 1000`. -/
theorem claim_C2_witness :
    (0 : ℚ) < 1000 ∧
    (ScrollHeroState.stage2FadeIn 1000 (ScrollHeroState.stage2Peak 1000) =
      max 0 (1 - ScrollHeroState.stage2FadeOut 1000 (ScrollHeroState.stage2Peak 1000)) ∧
    ScrollHeroState.stage2Opacity 1000 (ScrollHeroState.stage2Peak 1000) =
      ScrollHeroState.stage2FadeIn 1000 (ScrollHeroState.stage2Peak 1000) ∧
    ScrollHeroDirect.stage2FadeIn 1000 (ScrollHeroDirect.stage2Peak 1000) =
      max 0 (1 - ScrollHeroDirect.stage2FadeOut 1000 (ScrollHeroDirect.stage2Peak 1000)) ∧
    ScrollHeroDirect.stage2Opacity 1000 (ScrollHeroDirect.stage2Peak 1000) =
      ScrollHeroDirect.stage2FadeIn 1000 (ScrollHeroDirect.stage2Peak 1000)) :=
  ⟨by decide, claim_C2 1000 (by decide)⟩


lemma showHeader_iff (H s : ℚ) :
    ScrollHeroState.showHeader H s = true ↔
      ScrollHeroState.stage2End H - H * (3/10) < s := by
  unfold ScrollHeroState.showHeader
  exact decide_eq_true_iff

lemma clamp01_eval {x y : ℚ} (hxy : x = y) (h0 : 0 ≤ y) (h1 : y ≤ 1) :
    min (max x 0) 1 = y := by
  rw [hxy, max_eq_left h0, min_eq_left h1]

lemma state_fadeOut_2200 : ScrollHeroState.stage2FadeOut 1000 2200 = 7/10 := by
  unfold ScrollHeroState.stage2FadeOut ScrollHeroState.stage2Peak ScrollHeroState.stage2End
  exact clamp01_eval (by norm_num) (by norm_num) (by norm_num)

lemma state_opacity_2200 : ScrollHeroState.stage2Opacity 1000 2200 = 3/10 := by
  unfold ScrollHeroState.stage2Opacity
  rw [if_neg (by unfold ScrollHeroState.stage2Peak; norm_num), state_fadeOut_2200]
  rw [max_eq_right (by norm_num : (0:ℚ) ≤ 1 - 7/10)]
  norm_num

lemma state_showHeader_2200 : ScrollHeroState.showHeader 1000 2200 = false := by
  rw [Bool.eq_false_iff]
  intro h
  rw [showHeader_iff] at h
  unfold ScrollHeroState.stage2End at h
  norm_num at h

lemma state_showHeader_2300 : ScrollHeroState.showHeader 1000 2300 = true := by
  rw [showHeader_iff]
  unfold ScrollHeroState.stage2End
  norm_num

/-- Claim C3 counterexample: with `windowHeight = 1000` and `scrollY = 2200`
the fade-out progress and opacity are as claimed, but the header-visibility
boolean is `false` at exactly this offset (the code compares with strict
`>` against the threshold `2200`), so the claim as stated is false. -/
theorem claim_C3_counterexample :
    ¬ (ScrollHeroState.stage2FadeOut 1000 2200 = 7/10 ∧
       ScrollHeroState.stage2Opacity 1000 2200 = 3/10 ∧
       ScrollHeroState.showHeader 1000 2200 = true) := by
  rintro ⟨-, -, hc⟩
  rw [state_showHeader_2200] at hc
  exact Bool.false_ne_true hc

/-- Claim C3 (amended): with `windowHeight = 1000` and `scrollY = 2200`, both
ScrollHero variants yield stage-2 fade-out progress `0.7` and stage-2 opacity
`0.3`; the header-visibility threshold is `2500 - 300 = 2200`, but the
comparison is strict, so the header boolean is still `false` at exactly
`scrollY = 2200` and becomes `true` precisely for `scrollY > 2200`. -/
theorem claim_C3 :
    ScrollHeroState.stage2FadeOut 1000 2200 = 7/10 ∧
    ScrollHeroState.stage2Opacity 1000 2200 = 3/10 ∧
    ScrollHeroDirect.stage2FadeOut 1000 2200 = 7/10 ∧
    ScrollHeroDirect.stage2Opacity 1000 2200 = 3/10 ∧
    ScrollHeroState.showHeader 1000 2200 = false ∧
    ScrollHeroDirect.showHeader 1000 2200 = false ∧
    (∀ s : ℚ, ScrollHeroState.showHeader 1000 s = true ↔ 2200 < s) ∧
    (∀ s : ℚ, ScrollHeroDirect.showHeader 1000 s = true ↔ 2200 < s) := by
  rw [direct_showHeader_eq, direct_stage2FadeOut_eq, direct_stage2Opacity_eq]
  refine ⟨state_fadeOut_2200, state_opacity_2200, state_fadeOut_2200,
    state_opacity_2200, state_showHeader_2200, state_showHeader_2200, ?_, ?_⟩ <;>
  · intro s
    rw [showHeader_iff]
    unfold ScrollHeroState.stage2End
    norm_num

/-- Claim C4: the header-visibility boolean is a pure function of
`(scrollY, H)` — the embedding computes it from those two values alone, both
variants compute the same boolean, and it equals the threshold comparison
`stage2End - 0.3 H < scrollY` — and it is monotone in `scrollY` for fixed
`H`: once true at some offset it stays true at every larger offset, so moving
from below the threshold to above it flips it from false to true exactly
once, with no hysteresis. -/
theorem claim_C4 (H s₁ s₂ : ℚ) (h₁₂ : s₁ ≤ s₂)
    (h₁ : ScrollHeroState.showHeader H s₁ = true) :
    ScrollHeroState.showHeader H s₂ = true ∧
    (∀ s : ℚ, ScrollHeroState.showHeader H s = ScrollHeroDirect.showHeader H s) ∧
    (∀ s : ℚ, ScrollHeroState.showHeader H s = true ↔
      ScrollHeroState.stage2End H - H * (3/10) < s) := by
  refine ⟨?_, fun s => by rw [direct_showHeader_eq], fun s => showHeader_iff H s⟩
  rw [showHeader_iff] at h₁ ⊢
  linarith

/-- Witness for C4 at `H = 1000`, `s₁ = 2300`, `s₂ = 2400`. -/
theorem claim_C4_witness :
    (2300 : ℚ) ≤ 2400 ∧ ScrollHeroState.showHeader 1000 2300 = true ∧
    (ScrollHeroState.showHeader 1000 2400 = true ∧
    (∀ s : ℚ, ScrollHeroState.showHeader 1000 s = ScrollHeroDirect.showHeader 1000 s) ∧
    (∀ s : ℚ, ScrollHeroState.showHeader 1000 s = true ↔
      ScrollHeroState.stage2End 1000 - 1000 * (3/10) < s)) :=
  ⟨by decide, state_showHeader_2300,
    claim_C4 1000 2300 2400 (by decide) state_showHeader_2300⟩

/-- Claim C9 counterexample: in the direct-DOM ScrollHero variant at
`windowHeight = 1000`, `scrollY = 1500`, stage-2 opacity is `1 > 0.5`, yet
the stage-2 pointer-event state is still `"none"` (the animation loop never
writes stage-2 `pointerEvents`), so the claimed equivalence between the
interactive flag and the opacity threshold fails there. -/
theorem claim_C9_counterexample :
    ¬ (ScrollHeroDirect.stage2Interactive 1000 1500 = true ↔
       (1/2 : ℚ) < ScrollHeroDirect.stage2Opacity 1000 1500) := by
  rw [direct_stage2Opacity_eq]
  intro h
  have h1 : ScrollHeroState.stage2Opacity 1000 1500 = 1 := by
    have hp : (1500 : ℚ) = ScrollHeroState.stage2Peak 1000 := by
      unfold ScrollHeroState.stage2Peak; norm_num
    rw [hp, stage2Opacity_at_peak]
  have h2 : (1/2 : ℚ) < ScrollHeroState.stage2Opacity 1000 1500 := by
    rw [h1]; norm_num
  have h3 := h.mpr h2
  exact Bool.false_ne_true h3

/-- Claim C9 (amended): in the `useState` ScrollHero variant, each stage's
interactive flag is true exactly when its opacity exceeds its fixed threshold
(`0.3` for stage 1, `0.5` for stage 2); in the direct-DOM variant this holds
for stage 1, but stage 2 never accepts pointer events regardless of opacity
(its `pointerEvents` style stays at the static value `"none"`).  In both
variants an element whose opacity is at or below its threshold never accepts
pointer events. -/
theorem claim_C9 (H s : ℚ) :
    (ScrollHeroState.stage1Interactive H s = true ↔
      (3/10 : ℚ) < ScrollHeroState.stage1Opacity H s) ∧
    (ScrollHeroState.stage2Interactive H s = true ↔
      (1/2 : ℚ) < ScrollHeroState.stage2Opacity H s) ∧
    (ScrollHeroDirect.stage1Interactive H s = true ↔
      (3/10 : ℚ) < ScrollHeroDirect.stage1Opacity H s) ∧
    ScrollHeroDirect.stage2Interactive H s = false := by
  rw [direct_stage1Interactive_eq, direct_stage1Opacity_eq]
  exact ⟨decide_eq_true_iff, decide_eq_true_iff, decide_eq_true_iff, rfl⟩

/-!
Fragment-shader ripple math of `PlasmaOceanNeural`.  GLSL floats are
modelled as real numbers.  The shader locals `timeSinceClick`,
`rippleRadius`, `rippleWidth = 0.1` and `dist` are inlined into
`rippleEffect`.
-/

noncomputable section

/-- Shader config: `#define RIPPLE_STRENGTH 0.4`. -/
def RIPPLE_STRENGTH : ℝ := 0.4

/-- Shader config: `#define RIPPLE_SPEED 2.5`. -/
def RIPPLE_SPEED : ℝ := 2.5

/-- A GLSL `vec2`. -/
structure Vec2 where
  x : ℝ
  y : ℝ

/-- GLSL componentwise subtraction of `vec2`. -/
def Vec2.sub (a b : Vec2) : Vec2 := ⟨a.x - b.x, a.y - b.y⟩

/-- GLSL `length(v)` for a `vec2`. -/
def Vec2.length (v : Vec2) : ℝ := Real.sqrt (v.x * v.x + v.y * v.y)

/-- GLSL `smoothstep(edge0, edge1, x)`:
`t = clamp((x - edge0) / (edge1 - edge0), 0, 1); return t * t * (3 - 2 * t)`. -/
def smoothstep (e0 e1 x : ℝ) : ℝ :=
  min (max ((x - e0) / (e1 - e0)) 0) 1 * min (max ((x - e0) / (e1 - e0)) 0) 1 *
    (3 - 2 * min (max ((x - e0) / (e1 - e0)) 0) 1)

/-- `float rippleEffect(vec2 uv, vec2 clickPos, float clickTime, float currentTime)`:
returns 0 when `clickTime < 0` (no click yet) or when more than 2 seconds have
passed since the click; otherwise a thin ring band
`smoothstep(rippleRadius - rippleWidth, rippleRadius, dist) -
 smoothstep(rippleRadius, rippleRadius + rippleWidth, dist)`
with `rippleRadius = timeSinceClick * RIPPLE_SPEED * 0.3`, `rippleWidth = 0.1`
and `dist = length(uv - clickPos)`, scaled by
`exp(-timeSinceClick * 1.5) * RIPPLE_STRENGTH`. -/
def rippleEffect (uv clickPos : Vec2) (clickTime currentTime : ℝ) : ℝ :=
  if clickTime < 0 then 0
  else if currentTime - clickTime > 2 then 0
  else
    (smoothstep ((currentTime - clickTime) * RIPPLE_SPEED * 0.3 - 0.1)
        ((currentTime - clickTime) * RIPPLE_SPEED * 0.3) ((Vec2.sub uv clickPos).length) -
      smoothstep ((currentTime - clickTime) * RIPPLE_SPEED * 0.3)
        ((currentTime - clickTime) * RIPPLE_SPEED * 0.3 + 0.1) ((Vec2.sub uv clickPos).length)) *
    (Real.exp (-(currentTime - clickTime) * 1.5) * RIPPLE_STRENGTH)

/-- `float pulse = ripple * 3.0` in the shader main function. -/
def neuralPulse (uv clickPos : Vec2) (clickTime currentTime : ℝ) : ℝ :=
  rippleEffect uv clickPos clickTime currentTime * 3

/-- Initial click state: `const clickRef = useRef({ x: 0, y: 0, time: -1 })`. -/
def initialClickTime : ℝ := -1

end

lemma smoothstep_nonneg (e0 e1 x : ℝ) : 0 ≤ smoothstep e0 e1 x := by
  unfold smoothstep
  set t := min (max ((x - e0) / (e1 - e0)) 0) 1 with ht
  have h0 : 0 ≤ t := le_min (le_max_right _ _) zero_le_one
  have h1 : t ≤ 1 := min_le_right _ _
  nlinarith

lemma smoothstep_le_one (e0 e1 x : ℝ) : smoothstep e0 e1 x ≤ 1 := by
  unfold smoothstep
  set t := min (max ((x - e0) / (e1 - e0)) 0) 1 with ht
  have h0 : 0 ≤ t := le_min (le_max_right _ _) zero_le_one
  have h1 : t ≤ 1 := min_le_right _ _
  nlinarith [sq_nonneg (1 - t)]

lemma smoothstep_of_le_left (e0 e1 x : ℝ) (h : x ≤ e0) (hlt : e0 < e1) :
    smoothstep e0 e1 x = 0 := by
  unfold smoothstep
  have hq : (x - e0) / (e1 - e0) ≤ 0 :=
    div_nonpos_of_nonpos_of_nonneg (by linarith) (by linarith)
  rw [max_eq_right hq, min_eq_left zero_le_one]
  ring

lemma smoothstep_of_ge_right (e0 e1 x : ℝ) (h : e1 ≤ x) (hlt : e0 < e1) :
    smoothstep e0 e1 x = 1 := by
  unfold smoothstep
  have hq : 1 ≤ (x - e0) / (e1 - e0) := (one_le_div (by linarith)).mpr (by linarith)
  rw [max_eq_left (le_trans zero_le_one hq), min_eq_right hq]
  ring

lemma rippleBand_nonneg (r d : ℝ) :
    0 ≤ smoothstep (r - 0.1) r d - smoothstep r (r + 0.1) d := by
  rcases le_or_lt d r with h | h
  · rw [smoothstep_of_le_left r (r + 0.1) d h (by norm_num)]
    have := smoothstep_nonneg (r - 0.1) r d
    linarith
  · rw [smoothstep_of_ge_right (r - 0.1) r d h.le (by norm_num)]
    have := smoothstep_le_one r (r + 0.1) d
    linarith

lemma rippleBand_le_one (r d : ℝ) :
    smoothstep (r - 0.1) r d - smoothstep r (r + 0.1) d ≤ 1 := by
  have h1 := smoothstep_le_one (r - 0.1) r d
  have h2 := smoothstep_nonneg r (r + 0.1) d
  linarith

/-- Claim C8: for every pixel position and click position, the click-ripple
contribution is bounded by `RIPPLE_STRENGTH` over the live time range, it
attains that full amplitude at `time_since_click = 0` (at the click point,
where the band is `1` and `exp(0) = 1`), and for every `time_since_click`
greater than 2 seconds the contribution is exactly `0`, hence at most any
negligible epsilon. -/
theorem claim_C8 (uv cp : Vec2) (ct t : ℝ) (hct : 0 ≤ ct) (htc : ct ≤ t) :
    rippleEffect uv cp ct t ≤ RIPPLE_STRENGTH ∧
    rippleEffect cp cp ct ct = RIPPLE_STRENGTH ∧
    (2 < t - ct → rippleEffect uv cp ct t = 0) := by
  have hct' : ¬ ct < 0 := not_lt.mpr hct
  have hR : (0 : ℝ) < RIPPLE_STRENGTH := by norm_num [RIPPLE_STRENGTH]
  refine ⟨?_, ?_, ?_⟩
  · unfold rippleEffect
    rw [if_neg hct']
    split_ifs with h2
    · exact hR.le
    · set r := (t - ct) * RIPPLE_SPEED * 0.3 with hr
      set d := (Vec2.sub uv cp).length with hdd
      have hb0 := rippleBand_nonneg r d
      have hb1 := rippleBand_le_one r d
      have hts0 : 0 ≤ t - ct := by linarith
      have harg : -(t - ct) * 1.5 ≤ 0 := by nlinarith
      have he : Real.exp (-(t - ct) * 1.5) ≤ 1 := by
        calc Real.exp (-(t - ct) * 1.5) ≤ Real.exp 0 := Real.exp_le_exp.mpr harg
          _ = 1 := Real.exp_zero
      have hepos : (0 : ℝ) < Real.exp (-(t - ct) * 1.5) := Real.exp_pos _
      calc (smoothstep (r - 0.1) r d - smoothstep r (r + 0.1) d) *
            (Real.exp (-(t - ct) * 1.5) * RIPPLE_STRENGTH)
          ≤ 1 * (Real.exp (-(t - ct) * 1.5) * RIPPLE_STRENGTH) :=
            mul_le_mul_of_nonneg_right hb1 (mul_nonneg hepos.le hR.le)
        _ = Real.exp (-(t - ct) * 1.5) * RIPPLE_STRENGTH := one_mul _
        _ ≤ 1 * RIPPLE_STRENGTH := mul_le_mul_of_nonneg_right he hR.le
        _ = RIPPLE_STRENGTH := one_mul _
  · unfold rippleEffect
    rw [if_neg hct']
    rw [sub_self]
    rw [if_neg (by norm_num : ¬ (0 : ℝ) > 2)]
    have hd : (Vec2.sub cp cp).length = 0 := by
      simp [Vec2.sub, Vec2.length]
    have hz : (0 : ℝ) * RIPPLE_SPEED * 0.3 = 0 := by ring
    rw [hd, hz]
    rw [smoothstep_of_ge_right (0 - 0.1) 0 0 (le_refl 0) (by norm_num)]
    rw [smoothstep_of_le_left 0 (0 + 0.1) 0 (le_refl 0) (by norm_num)]
    rw [show (-(0 : ℝ) * 1.5) = 0 by ring, Real.exp_zero]
    ring
  · intro h2
    unfold rippleEffect
    rw [if_neg hct', if_pos h2]

/-- Witness for C8 at `uv = clickPos = (0,0)`, `clickTime = currentTime = 0`. -/
theorem claim_C8_witness :
    (0 : ℝ) ≤ 0 ∧ rippleEffect ⟨0, 0⟩ ⟨0, 0⟩ 0 0 = RIPPLE_STRENGTH :=
  ⟨le_refl 0, (claim_C8 ⟨0, 0⟩ ⟨0, 0⟩ 0 0 (le_refl 0) (le_refl 0)).2.1⟩

/-- Claim C10: while the click timestamp holds its initial sentinel value `-1`
(before any click has occurred), the ripple contribution and the derived
neural pulse are exactly zero for every pixel, every click position, and
every elapsed time. -/
theorem claim_C10 (uv cp : Vec2) (t : ℝ) :
    rippleEffect uv cp initialClickTime t = 0 ∧
    neuralPulse uv cp initialClickTime t = 0 := by
  have h : initialClickTime < 0 := by norm_num [initialClickTime]
  have h1 : rippleEffect uv cp initialClickTime t = 0 := by
    unfold rippleEffect
    rw [if_pos h]
  refine ⟨h1, ?_⟩
  unfold neuralPulse
  rw [h1]
  ring

/-!
Initialization, frame-loop and resize behaviour of the two shader-renderer
components.  The browser-supplied conditions an initialization run can
observe (canvas ref populated, `prefers-reduced-motion` media query,
`getContext("webgl")` success, shader compilation, program linking) are
collected in an environment record; the `useEffect` init body is embedded as
a function of that record.
-/

/-- Environment observed by the `PlasmaOceanNeural` init effect. -/
structure NeuralEnv where
  canvasPresent : Bool
  prefersReducedMotion : Bool
  getContextOk : Bool
  vertexShaderOk : Bool
  fragmentShaderOk : Bool
  linkOk : Bool
deriving DecidableEq

/-- Result of the `PlasmaOceanNeural` init effect: the `hasWebGL` state
(initially `true`) after the effect ran, and whether `render()` was called
to start the animation loop. -/
structure NeuralInitState where
  hasWebGL : Bool
  loopStarted : Bool
deriving DecidableEq

/-- The `PlasmaOceanNeural` `useEffect` init body: bail out if the canvas ref
is empty; `setHasWebGL(false)` and return (no loop) on a reduced-motion
preference, on `getContext` returning null, on either shader failing to
compile, or on program link failure; otherwise finish setup and call
`render()`. -/
def neuralInitEffect (e : NeuralEnv) : NeuralInitState :=
  if !e.canvasPresent then { hasWebGL := true, loopStarted := false }
  else if e.prefersReducedMotion then { hasWebGL := false, loopStarted := false }
  else if !e.getContextOk then { hasWebGL := false, loopStarted := false }
  else if !e.vertexShaderOk || !e.fragmentShaderOk then { hasWebGL := false, loopStarted := false }
  else if !e.linkOk then { hasWebGL := false, loopStarted := false }
  else { hasWebGL := true, loopStarted := true }

/-- The `PlasmaOceanNeural` component body substitutes the static
radial-gradient fallback `div` exactly when `hasWebGL` is false:
`if (!hasWebGL) return <div className="plasma-ocean-neural-fallback" .../>`. -/
def neuralRendersFallback (s : NeuralInitState) : Bool := !s.hasWebGL

/-- Draw calls attempted by `PlasmaOceanNeural`: `gl.drawArrays` only runs
inside the `render()` loop, so if the loop is never started the count is `0`
whatever happens afterwards. -/
def neuralDrawCallCount (e : NeuralEnv) (visibleFrames : ℕ) : ℕ :=
  if (neuralInitEffect e).loopStarted then visibleFrames else 0

/-- Environment observed by the `PlasmaBackground` init effect.  The record
includes the platform's reduced-motion preference even though the component
never queries it — `PlasmaBackground` has no `matchMedia` check. -/
structure BgEnv where
  canvasPresent : Bool
  prefersReducedMotion : Bool
  getContextOk : Bool
  vertexShaderOk : Bool
  fragmentShaderOk : Bool
  linkOk : Bool
deriving DecidableEq

/-- The `PlasmaBackground` `useEffect` init body: bail out (no loop) if the
canvas ref is empty, if `getContext` returns null (a `console.warn` only),
if either shader fails to compile, or if linking fails; otherwise call
`render()`.  The reduced-motion preference is never consulted. -/
def bgLoopStarted (e : BgEnv) : Bool :=
  if !e.canvasPresent then false
  else if !e.getContextOk then false
  else if !e.vertexShaderOk || !e.fragmentShaderOk then false
  else if !e.linkOk then false
  else true

/-- The `PlasmaBackground` component body unconditionally returns its
`<canvas>` element: there is no fallback branch in its JSX. -/
def bgRendersFallback (e : BgEnv) : Bool := false

/-- Draw calls attempted by `PlasmaBackground`: `gl.drawArrays` only runs
inside its `render()` loop. -/
def bgDrawCallCount (e : BgEnv) (frames : ℕ) : ℕ :=
  if bgLoopStarted e then frames else 0

/-- Claim C5 counterexample: in an environment where the platform reports a
reduced-motion preference but a rendering context is available,
`PlasmaBackground` starts its animation loop anyway and renders its canvas
with no static fallback — the component has no reduced-motion check — so the
claim quantified over every shader-renderer component is false. -/
theorem claim_C5_counterexample :
    ¬ (bgLoopStarted ⟨true, true, true, true, true, true⟩ = false ∨
       bgRendersFallback ⟨true, true, true, true, true, true⟩ = true) := by
  decide

/-- Claim C5 (amended): for `PlasmaOceanNeural`, if context acquisition fails
or the platform reports a reduced-motion preference, initialization sets
`hasWebGL` to false, the static gradient fallback is substituted, no
animation loop is started, and zero draw calls are attempted.  For
`PlasmaBackground`, context-acquisition failure likewise prevents the loop
(zero draw calls), but the reduced-motion preference is not consulted and no
static fallback is substituted. -/
theorem claim_C5 (e : NeuralEnv) (eb : BgEnv) (n m : ℕ)
    (hc : e.canvasPresent = true)
    (h : e.getContextOk = false ∨ e.prefersReducedMotion = true)
    (hb : eb.getContextOk = false) :
    (neuralInitEffect e).hasWebGL = false ∧
    (neuralInitEffect e).loopStarted = false ∧
    neuralRendersFallback (neuralInitEffect e) = true ∧
    neuralDrawCallCount e n = 0 ∧
    bgLoopStarted eb = false ∧
    bgDrawCallCount eb m = 0 := by
  have hinit : neuralInitEffect e = { hasWebGL := false, loopStarted := false } := by
    unfold neuralInitEffect
    rcases h with h | h
    · cases hpm : e.prefersReducedMotion <;> simp [hc, hpm, h]
    · simp [hc, h]
  have hbg : bgLoopStarted eb = false := by
    unfold bgLoopStarted
    cases hcb : eb.canvasPresent <;> simp [hcb, hb]
  refine ⟨by rw [hinit], by rw [hinit], by rw [hinit]; rfl, ?_, hbg, ?_⟩
  · unfold neuralDrawCallCount
    rw [hinit]
    rfl
  · unfold bgDrawCallCount
    rw [hbg]
    rfl

/-- Witness for C5: canvas present, context acquisition fails in both
components. -/
theorem claim_C5_witness :
    (NeuralEnv.mk true false false true true true).canvasPresent = true ∧
    ((NeuralEnv.mk true false false true true true).getContextOk = false ∨
      (NeuralEnv.mk true false false true true true).prefersReducedMotion = true) ∧
    (BgEnv.mk true false false true true true).getContextOk = false ∧
    ((neuralInitEffect (NeuralEnv.mk true false false true true true)).hasWebGL = false ∧
    (neuralInitEffect (NeuralEnv.mk true false false true true true)).loopStarted = false ∧
    neuralRendersFallback (neuralInitEffect (NeuralEnv.mk true false false true true true)) = true ∧
    neuralDrawCallCount (NeuralEnv.mk true false false true true true) 3 = 0 ∧
    bgLoopStarted (BgEnv.mk true false false true true true) = false ∧
    bgDrawCallCount (BgEnv.mk true false false true true true) 4 = 0) :=
  ⟨rfl, Or.inl rfl, rfl,
    claim_C5 (NeuralEnv.mk true false false true true true)
      (BgEnv.mk true false false true true true) 3 4 rfl (Or.inl rfl) rfl⟩

/-- Per-frame counters of the `PlasmaOceanNeural` render loop. -/
structure FrameCounters where
  uniformWrites : ℕ
  drawCalls : ℕ
deriving DecidableEq

/-- Effective visibility of the renderer:
`isVisibleRef.current && isVisiblePropRef.current` (tab visibility AND the
externally supplied `isVisible` prop); the loop skips work when it is false. -/
def effectiveVisible (docVisible propVisible : Bool) : Bool := docVisible && propVisible

/-- One iteration of the `PlasmaOceanNeural` `render()` callback: dead stop
(no reschedule) if the context or program ref is gone; if the effective
visibility flag is false, reschedule only; otherwise write the 7 uniforms
(`u_time`, `u_resolution`, `u_mouse`, `u_mouseActive`, `u_clickTime`,
`u_clickPos`, `u_intensity`), issue one `drawArrays` call, and reschedule.
The returned boolean records whether `requestAnimationFrame` was called
again. -/
def renderStep (glOk programOk docVisible propVisible : Bool) (c : FrameCounters) :
    FrameCounters × Bool :=
  if !glOk || !programOk then (c, false)
  else if !docVisible || !propVisible then (c, true)
  else ({ uniformWrites := c.uniformWrites + 7, drawCalls := c.drawCalls + 1 }, true)

/-- Claim C6: in every frame where the effective visibility flag (tab
visibility AND the externally supplied visibility prop) is false, the render
loop performs no uniform updates and no draw call but still schedules the
next frame, so invisibility alone never cancels the loop. -/
theorem claim_C6 (dv pv : Bool) (c : FrameCounters)
    (h : effectiveVisible dv pv = false) :
    renderStep true true dv pv c = (c, true) := by
  cases dv <;> cases pv <;> simp_all [renderStep, effectiveVisible]

/-- Witness for C6: tab hidden, prop visible, fresh counters. -/
theorem claim_C6_witness :
    effectiveVisible false true = false ∧
    renderStep true true false true ⟨0, 0⟩ = (⟨0, 0⟩, true) :=
  ⟨rfl, claim_C6 false true ⟨0, 0⟩ rfl⟩

/-- DPR cap of `PlasmaOceanNeural.handleResize`:
`const isMobile = window.innerWidth < 768;`
`isMobile ? 1.0 : 1.5`. -/
def neuralResizeCap (innerWidth : ℚ) : ℚ := if innerWidth < 768 then 1 else 3/2

/-- `const dpr = Math.min(window.devicePixelRatio, isMobile ? 1.0 : 1.5)`. -/
def neuralResizeDpr (innerWidth devicePixelRatio : ℚ) : ℚ :=
  min devicePixelRatio (neuralResizeCap innerWidth)

/-- `canvas.width = canvas.clientWidth * dpr` in `PlasmaOceanNeural.handleResize`. -/
def neuralCanvasWidth (innerWidth devicePixelRatio clientWidth : ℚ) : ℚ :=
  clientWidth * neuralResizeDpr innerWidth devicePixelRatio

/-- `canvas.height = canvas.clientHeight * dpr` in `PlasmaOceanNeural.handleResize`. -/
def neuralCanvasHeight (innerWidth devicePixelRatio clientHeight : ℚ) : ℚ :=
  clientHeight * neuralResizeDpr innerWidth devicePixelRatio

/-- `const dpr = Math.min(window.devicePixelRatio, 2)` in
`PlasmaBackground.handleResize`. -/
def bgResizeDpr (devicePixelRatio : ℚ) : ℚ := min devicePixelRatio 2

/-- `canvas.width = canvas.clientWidth * dpr` in `PlasmaBackground.handleResize`. -/
def bgCanvasWidth (devicePixelRatio clientWidth : ℚ) : ℚ :=
  clientWidth * bgResizeDpr devicePixelRatio

/-- `canvas.height = canvas.clientHeight * dpr` in `PlasmaBackground.handleResize`. -/
def bgCanvasHeight (devicePixelRatio clientHeight : ℚ) : ℚ :=
  clientHeight * bgResizeDpr devicePixelRatio

/-- Claim C7: on resize, backing-buffer pixel dimensions equal displayed size
times `min(devicePixelRatio, cap)` in both renderers; in `PlasmaOceanNeural`
the cap is strictly lower on narrow/mobile viewports (`1.0` below 768px vs
`1.5` otherwise); and whenever the reported ratio is at or above the
configured cap, the capped value is used, never the raw ratio. -/
theorem claim_C7 (iw ratio cw ch w wd r : ℚ)
    (hcap : neuralResizeCap iw ≤ ratio) (hw : w < 768) (hwd : 768 ≤ wd) (hr : 2 ≤ r) :
    neuralResizeDpr iw ratio = neuralResizeCap iw ∧
    neuralCanvasWidth iw ratio cw = cw * neuralResizeCap iw ∧
    neuralCanvasHeight iw ratio ch = ch * neuralResizeCap iw ∧
    neuralResizeCap w < neuralResizeCap wd ∧
    bgResizeDpr r = 2 ∧
    (∀ q c : ℚ, bgCanvasWidth q c = c * min q 2) ∧
    (∀ w2 q c : ℚ, neuralCanvasWidth w2 q c = c * min q (neuralResizeCap w2)) := by
  have hdpr : neuralResizeDpr iw ratio = neuralResizeCap iw := by
    unfold neuralResizeDpr
    exact min_eq_right hcap
  refine ⟨hdpr, ?_, ?_, ?_, min_eq_right hr, fun q c => rfl, fun w2 q c => rfl⟩
  · unfold neuralCanvasWidth
    rw [hdpr]
  · unfold neuralCanvasHeight
    rw [hdpr]
  · unfold neuralResizeCap
    rw [if_pos hw, if_neg (not_lt.mpr hwd)]
    norm_num

/-- Witness for C7: desktop viewport 1024px wide, reported ratio 3.0 against
the cap 1.5, mobile width 400, desktop width 800, background ratio 3. -/
theorem claim_C7_witness :
    neuralResizeCap 1024 ≤ 3 ∧ (400 : ℚ) < 768 ∧ (768 : ℚ) ≤ 800 ∧ (2 : ℚ) ≤ 3 ∧
    (neuralResizeDpr 1024 3 = neuralResizeCap 1024 ∧
    neuralCanvasWidth 1024 3 640 = 640 * neuralResizeCap 1024 ∧
    neuralCanvasHeight 1024 3 480 = 480 * neuralResizeCap 1024 ∧
    neuralResizeCap 400 < neuralResizeCap 800 ∧
    bgResizeDpr 3 = 2 ∧
    (∀ q c : ℚ, bgCanvasWidth q c = c * min q 2) ∧
    (∀ w2 q c : ℚ, neuralCanvasWidth w2 q c = c * min q (neuralResizeCap w2))) :=
  ⟨by norm_num [neuralResizeCap], by norm_num, by norm_num, by norm_num,
    claim_C7 1024 3 640 480 400 800 3 (by norm_num [neuralResizeCap]) (by norm_num)
      (by norm_num) (by norm_num)⟩
